import Mathlib

/-!
Verification development for the robot-control plugin
(`plugins_func/functions/robots_control.py`): a shallow embedding of the
MQTT connection manager (`RobotController`) and the command dispatcher
(`robots_control`), with theorems about the dispatch behaviour.

The MQTT transport is modelled by an environment `MqttEnv` telling, per
topic, whether `client.publish` raises, and what result code it returns
when it does not.  Published messages (topic, payload, qos) are collected
explicitly so that "no publish was attempted" is a statement about an
empty list.
-/

set_option autoImplicit false

namespace RobotsControl

/-- The fixed 14-symbol action vocabulary (`ROBOT_ACTIONS` /
`RobotAction.__args__` in the source). -/
def ROBOT_ACTIONS : List String :=
  ["forward", "turn_L", "home", "turn_R", "backward",
   "hello", "omni_walk", "moonwalk_L", "dance", "up_down",
   "push_up", "front_back", "wave_hand", "scared"]

/-- An atomic Python value appearing as a target id or list element:
an integer or a (non-integer) string. -/
inductive PyAtom where
  | aint : Int → PyAtom
  | astr : String → PyAtom
deriving DecidableEq, Repr

/-- A Python value passed as the `robot_id` argument: an atom or a list
of atoms.  `isinstance(robot_id, int)` matches `atom (aint n)`,
`isinstance(robot_id, list)` matches `plist xs`. -/
inductive PyValue where
  | atom : PyAtom → PyValue
  | plist : List PyAtom → PyValue
deriving DecidableEq, Repr

/-- Python `str()` of an atom, as used by the f-string
`f"esp32/robot{rid}/sub"`. -/
def atomStr : PyAtom → String
  | .aint n => toString n
  | .astr s => s

/-- The topic built for a target id (line 206 of the source):
`f"esp32/robot{rid}/sub"`. -/
def robotTopic (rid : PyAtom) : String :=
  "esp32/robot" ++ atomStr rid ++ "/sub"

/-- One message handed to `client.publish`: topic, payload and QoS. -/
structure PublishedMsg where
  topic : String
  payload : String
  qos : Nat
deriving DecidableEq, Repr

/-- Transport environment: whether `client.publish` raises for a given
topic, and the result code (`result.rc`) it returns when it does not.
The result code is part of the model only to prove it is never
inspected. -/
structure MqttEnv where
  pubRaises : String → Bool
  pubRc : String → Nat

/-- `RobotController.send_action` (lines 88-112): returns the status
string together with the list of publish attempts made (empty or a
single message).  A raising publish still counts as an attempt, matching
the `try` block around `client.publish`. -/
def send_action (env : MqttEnv) (is_connected : Bool)
    (action robot_topic : String) : String × List PublishedMsg :=
  if is_connected = false then
    ("ERROR：MQTT未连接", [])
  else if decide (action ∈ ROBOT_ACTIONS) = false then
    ("ERROR:无效的动作指令" ++ action, [])
  else if env.pubRaises robot_topic then
    ("ERROR:" ++ action ++ "命令执行失败", [⟨robot_topic, action, 1⟩])
  else
    ("SUCCESS:" ++ action ++ "命令执行成功", [⟨robot_topic, action, 1⟩])

/-- Python `dict` assignment `results[rid] = v`: replaces the value of an
existing key in place, otherwise appends the new binding. -/
def dictInsert (m : List (PyAtom × String)) (k : PyAtom) (v : String) :
    List (PyAtom × String) :=
  if m.any (fun p => p.1 = k) then
    m.map (fun p => if p.1 = k then (k, v) else p)
  else
    m ++ [(k, v)]

/-- The dispatch loop of `robots_control` (lines 204-210): for each
target in order, build the topic, call `send_action`, and store the
result under the target's key.  Returns the result dict and all publish
attempts in order. -/
def runTargets (env : MqttEnv) (is_connected : Bool) (action : String) :
    List PyAtom → List (PyAtom × String) → List (PyAtom × String) × List PublishedMsg
  | [], acc => (acc, [])
  | rid :: rest, acc =>
      let r := send_action env is_connected action (robotTopic rid)
      let next := runTargets env is_connected action rest (dictInsert acc rid r.1)
      (next.1, r.2 ++ next.2)

/-- Outcome of a `robots_control` call, the content of the returned
`ActionResponse`: the connection-failure message, the bad-`robot_id`
message, or the per-target result dict. -/
inductive DispatchResult where
  | connFail : DispatchResult
  | invalidArg : DispatchResult
  | results : List (PyAtom × String) → DispatchResult
deriving DecidableEq, Repr

/-- `robots_control` (lines 176-212) after the controller has been
obtained: `is_connected` is the controller state read at line 193.
Checks the connection first, then normalizes `robot_id` (int becomes a
one-element list, a list is taken as is with no element check, anything
else is rejected), then runs the per-target loop. -/
def robots_control (env : MqttEnv) (is_connected : Bool)
    (action : String) (robot_id : PyValue) :
    DispatchResult × List PublishedMsg :=
  if is_connected = false then
    (.connFail, [])
  else
    match robot_id with
    | .atom (.aint n) =>
        let r := runTargets env is_connected action [.aint n] []
        (.results r.1, r.2)
    | .plist xs =>
        let r := runTargets env is_connected action xs []
        (.results r.1, r.2)
    | .atom (.astr _) => (.invalidArg, [])

/-- Connection configuration captured by `RobotController.__init__`
(lines 43-46).  The `client_id` parameter is not part of the state: the
source overwrites it with a fresh uuid at line 48. -/
structure CtrlConfig where
  mqtt_host : String
  mqtt_port : Int
  mqtt_user : Option String
  mqtt_pass : Option String
deriving DecidableEq, Repr

/-- The observable state of the singleton `RobotController` object:
the `_initialized` guard flag, the connection flag after the bounded
wait, the stored configuration, and how many transport connections this
object has opened (successful `client.connect` calls). -/
structure Controller where
  initialized : Bool
  is_connected : Bool
  cfg : CtrlConfig
  connectCount : Nat
deriving DecidableEq, Repr

/-- `RobotController.__init__` (lines 30-74): a no-op when
`_initialized` is already set (line 38).  Otherwise the configuration is
stored (lines 41-46, before the `try` block), then `client.connect` is
attempted.  When it raises (`connectRaises`, the `except` branch at
lines 73-74), no connection is opened and `_initialized` stays `False`
— the stored configuration is already overwritten, though.  When it
does not raise, the connection is opened, the bounded wait runs (the
connection flag after it is the environment input `connEstablished`),
and the object is marked initialized. -/
def ctrl_init (connectRaises connEstablished : Bool) (self : Controller)
    (cfg : CtrlConfig) : Controller :=
  if self.initialized then self
  else if connectRaises then
    { initialized := false
      is_connected := false
      cfg := cfg
      connectCount := self.connectCount }
  else
    { initialized := true
      is_connected := connEstablished
      cfg := cfg
      connectCount := self.connectCount + 1 }

/-- `RobotController(args)`: `__new__` (lines 24-27) returns the stored
instance when one exists, otherwise a fresh object (on which every
`getattr` default is `False` and no connection has been opened), then
`__init__` runs on it.  Returns the resulting handle and the updated
class-level `_instance` slot. -/
def RobotController_call (connectRaises connEstablished : Bool)
    (inst : Option Controller) (cfg : CtrlConfig) :
    Controller × Option Controller :=
  let self := inst.getD ⟨false, false, cfg, 0⟩
  let self2 := ctrl_init connectRaises connEstablished self cfg
  (self2, some self2)

/-- Number of poll iterations of the bounded connection wait
(`for _ in range(50)`, line 67). -/
def WAIT_POLLS : Nat := 50

/-- Duration of one poll interval in milliseconds
(`time.sleep(0.1)`, line 70). -/
def WAIT_INTERVAL_MS : Nat := 100

/-- The bounded wait loop of `__init__` (lines 67-70), counting the
`time.sleep` calls performed: `connAt k` is the value of
`_is_connected` observed at the k-th poll; the loop breaks as soon as it
reads `true`. -/
def waitLoop (connAt : Nat → Bool) : Nat → Nat → Nat
  | 0, _ => 0
  | fuel + 1, i => if connAt i then 0 else 1 + waitLoop connAt fuel (i + 1)

/-- A transport on which no publish raises. -/
def envAllOk : MqttEnv := ⟨fun _ => false, fun _ => 0⟩

/-- A transport on which exactly the publish to robot 2's topic raises. -/
def envFail2 : MqttEnv := ⟨fun t => decide (t = "esp32/robot2/sub"), fun _ => 0⟩

/-! ### Helper lemmas -/

/-- The per-target invalid-action error string can never coincide with
the not-connected error string: the sixth character differs (ASCII colon
against the full-width colon). -/
theorem unknown_action_ne_notconn (a : String) :
    "ERROR:无效的动作指令" ++ a ≠ "ERROR：MQTT未连接" := by
  intro h
  have h2 := congrArg String.data h
  rw [String.data_append] at h2
  have e1 : "ERROR:无效的动作指令".data =
      ['E','R','R','O','R',':','无','效','的','动','作','指','令'] := rfl
  have e2 : "ERROR：MQTT未连接".data =
      ['E','R','R','O','R','：','M','Q','T','T','未','连','接'] := rfl
  rw [e1, e2] at h2
  simp at h2

/-- With a live connection and a valid action, `send_action` always
makes exactly one publish attempt, carrying the topic, the raw action as
payload, and QoS 1. -/
theorem send_action_msgs (env : MqttEnv) (action topic : String)
    (h : action ∈ ROBOT_ACTIONS) :
    (send_action env true action topic).2 = [⟨topic, action, 1⟩] := by
  simp only [send_action]
  rw [if_neg (by simp), if_neg (by simp [h])]
  split <;> rfl

/-- Every value of `dictInsert m k v` satisfies `P` when every value of
`m` does and `v` does. -/
theorem dictInsert_forall_values {P : String → Prop}
    (m : List (PyAtom × String)) (k : PyAtom) (v : String)
    (hm : ∀ kv ∈ m, P kv.2) (hv : P v) :
    ∀ kv ∈ dictInsert m k v, P kv.2 := by
  intro kv hkv
  unfold dictInsert at hkv
  by_cases hk : m.any (fun p => p.1 = k)
  · rw [if_pos hk] at hkv
    rcases List.mem_map.mp hkv with ⟨p, hp, hpe⟩
    by_cases hpk : p.1 = k
    · rw [if_pos hpk] at hpe
      rw [← hpe]
      exact hv
    · rw [if_neg hpk] at hpe
      rw [← hpe]
      exact hm p hp
  · rw [if_neg hk] at hkv
    rcases List.mem_append.mp hkv with hin | hin
    · exact hm kv hin
    · rw [List.mem_singleton.mp hin]
      exact hv

/-- `dictInsert` makes `k` a key of the result. -/
theorem dictInsert_mem_self (m : List (PyAtom × String)) (k : PyAtom)
    (v : String) : ∃ w, (k, w) ∈ dictInsert m k v := by
  unfold dictInsert
  by_cases hk : m.any (fun p => p.1 = k)
  · rw [if_pos hk]
    rcases List.any_eq_true.mp hk with ⟨p, hp, hpk⟩
    refine ⟨v, List.mem_map.mpr ⟨p, hp, ?_⟩⟩
    rw [if_pos (of_decide_eq_true hpk)]
  · rw [if_neg hk]
    exact ⟨v, List.mem_append.mpr (Or.inr (List.mem_singleton.mpr rfl))⟩

/-- `dictInsert` keeps every existing key. -/
theorem dictInsert_mem_mono (m : List (PyAtom × String)) (k k' : PyAtom)
    (v : String) (h : ∃ w, (k', w) ∈ m) :
    ∃ w, (k', w) ∈ dictInsert m k v := by
  rcases h with ⟨w, hw⟩
  unfold dictInsert
  by_cases hk : m.any (fun p => p.1 = k)
  · rw [if_pos hk]
    by_cases hkk : k' = k
    · subst hkk
      refine ⟨v, List.mem_map.mpr ⟨(k', w), hw, ?_⟩⟩
      simp
    · refine ⟨w, List.mem_map.mpr ⟨(k', w), hw, ?_⟩⟩
      simp [hkk]
  · rw [if_neg hk]
    exact ⟨w, List.mem_append.mpr (Or.inl hw)⟩

/-- With a live connection, the dispatch loop keeps every key already in
the accumulator and adds a key for every target in the list. -/
theorem runTargets_covers (env : MqttEnv) (c : Bool) (action : String)
    (rids : List PyAtom) (acc : List (PyAtom × String)) :
    (∀ k, (∃ w, (k, w) ∈ acc) → ∃ w, (k, w) ∈ (runTargets env c action rids acc).1) ∧
    (∀ rid ∈ rids, ∃ w, (rid, w) ∈ (runTargets env c action rids acc).1) := by
  induction rids generalizing acc with
  | nil => exact ⟨fun k hk => hk, by simp⟩
  | cons rid rest ih =>
    constructor
    · intro k hk
      exact (ih _).1 k (dictInsert_mem_mono _ _ _ _ hk)
    · intro r hr
      rcases List.mem_cons.mp hr with hhd | htl
      · subst hhd
        exact (ih _).1 r (dictInsert_mem_self _ _ _)
      · exact (ih _).2 r htl

/-- With a live connection and a valid action, the dispatch loop makes
one publish attempt per list element, in order. -/
theorem runTargets_msgs (env : MqttEnv) (action : String)
    (h : action ∈ ROBOT_ACTIONS) (rids : List PyAtom)
    (acc : List (PyAtom × String)) :
    (runTargets env true action rids acc).2 =
      rids.map (fun rid => ⟨robotTopic rid, action, 1⟩) := by
  induction rids generalizing acc with
  | nil => rfl
  | cons rid rest ih =>
    simp only [runTargets, List.map_cons]
    rw [send_action_msgs env action _ h, ih]
    rfl

/-- With a live connection and an invalid action, the dispatch loop
publishes nothing and fills every entry with the invalid-action error. -/
theorem runTargets_invalid (env : MqttEnv) (action : String)
    (h : action ∉ ROBOT_ACTIONS) (rids : List PyAtom)
    (acc : List (PyAtom × String))
    (hacc : ∀ kv ∈ acc, kv.2 = "ERROR:无效的动作指令" ++ action) :
    (runTargets env true action rids acc).2 = [] ∧
    ∀ kv ∈ (runTargets env true action rids acc).1,
      kv.2 = "ERROR:无效的动作指令" ++ action := by
  induction rids generalizing acc with
  | nil => exact ⟨rfl, hacc⟩
  | cons rid rest ih =>
    have hsa : send_action env true action (robotTopic rid) =
        ("ERROR:无效的动作指令" ++ action, []) := by
      simp [send_action, h]
    have hrec := ih (dictInsert acc rid ("ERROR:无效的动作指令" ++ action))
      (dictInsert_forall_values
        (P := fun v => v = "ERROR:无效的动作指令" ++ action) _ _ _ hacc rfl)
    simp only [runTargets, hsa]
    exact ⟨by simpa using hrec.1, hrec.2⟩

/-- The wait loop never sleeps more often than its fuel allows. -/
theorem waitLoop_le (connAt : Nat → Bool) :
    ∀ fuel i, waitLoop connAt fuel i ≤ fuel := by
  intro fuel
  induction fuel with
  | zero => intro i; simp [waitLoop]
  | succ n ih =>
    intro i
    simp only [waitLoop]
    split
    · exact Nat.zero_le _
    · have := ih (i + 1)
      omega

/-- The wait loop stops at the first poll that observes a live
connection. -/
theorem waitLoop_stops_when_connected (connAt : Nat → Bool) :
    ∀ fuel i k, k < fuel → connAt (i + k) = true →
      (∀ j, j < k → connAt (i + j) = false) →
      waitLoop connAt fuel i = k := by
  intro fuel
  induction fuel with
  | zero => intro i k hk; omega
  | succ n ih =>
    intro i k hk hc hprev
    cases k with
    | zero =>
      simp only [waitLoop]
      rw [if_pos (by simpa using hc)]
    | succ m =>
      have h0 : connAt i = false := by simpa using hprev 0 (Nat.succ_pos m)
      simp only [waitLoop]
      rw [if_neg (by simp [h0])]
      have hrec : waitLoop connAt n (i + 1) = m := by
        refine ih (i + 1) m (by omega) ?_ ?_
        · rw [show i + 1 + m = i + (m + 1) from by omega]
          exact hc
        · intro j hj
          rw [show i + 1 + j = i + (j + 1) from by omega]
          exact hprev (j + 1) (by omega)
      omega

/-! ### Claims -/

/-- C1 counterexample: with a live connection, dispatching the invalid
action `fly` to targets `[1, 2]` does not return a single validation
failure decided once before the loop; it returns a per-target mapping
with two entries, each holding the invalid-action error produced inside
the loop (no publish is attempted, though). -/
theorem C1_counterexample :
    robots_control envAllOk true "fly" (.plist [.aint 1, .aint 2]) =
      (.results [(.aint 1, "ERROR:无效的动作指令fly"),
                 (.aint 2, "ERROR:无效的动作指令fly")], []) := rfl

/-- C1 (corrected): for every action outside the 14-symbol vocabulary
and a live connection, no publish is ever attempted, and the returned
per-target mapping carries the invalid-action error for each entry; the
validation happens per target inside the loop, not once before it. -/
theorem C1_amended_per_target_unknown (env : MqttEnv) (action : String)
    (rids : List PyAtom) (h : action ∉ ROBOT_ACTIONS) :
    (robots_control env true action (.plist rids)).2 = [] ∧
    ∃ m, (robots_control env true action (.plist rids)).1 = .results m ∧
      ∀ kv ∈ m, kv.2 = "ERROR:无效的动作指令" ++ action := by
  have hrt := runTargets_invalid env action h rids [] (by simp)
  refine ⟨?_, (runTargets env true action rids []).1, ?_, hrt.2⟩
  · simp [robots_control, hrt.1]
  · simp [robots_control]

/-- C1 witness: the corrected statement at the invalid action `fly` and
target list `[1]`. -/
theorem C1_amended_witness :
    (robots_control envAllOk true "fly" (.plist [.aint 1])).2 = [] ∧
    ∃ m, (robots_control envAllOk true "fly" (.plist [.aint 1])).1 = .results m ∧
      ∀ kv ∈ m, kv.2 = "ERROR:无效的动作指令" ++ "fly" :=
  C1_amended_per_target_unknown envAllOk "fly" [.aint 1] (by decide)

/-- C2 (confirmed): for every valid action, when the controller reports
not-connected after the bounded wait, `robots_control` short-circuits
with the single connection-failure response and performs zero publish
attempts for any target argument. -/
theorem C2_disconnected_short_circuit (env : MqttEnv) (action : String)
    (_h : action ∈ ROBOT_ACTIONS) (robot_id : PyValue) :
    robots_control env false action robot_id = (.connFail, []) := by
  simp [robots_control]

/-- C2 witness: the valid action `dance` against target 1 while
disconnected. -/
theorem C2_witness :
    robots_control envAllOk false "dance" (.atom (.aint 1)) = (.connFail, []) :=
  C2_disconnected_short_circuit envAllOk "dance" (by decide) (.atom (.aint 1))

/-- C3 (confirmed): for targets `[1, 2, 3]` with a transport on which
only robot 2's publish raises, the result mapping has exactly three
entries, one per id; id 2 reports its own failure while ids 1 and 3
still report success, and the dispatch returns normally (no exception
escapes an individual target's failure). -/
theorem C3_partial_failure_independence (action : String)
    (h : action ∈ ROBOT_ACTIONS) :
    robots_control envFail2 true action (.plist [.aint 1, .aint 2, .aint 3]) =
      (.results [(.aint 1, "SUCCESS:" ++ action ++ "命令执行成功"),
                 (.aint 2, "ERROR:" ++ action ++ "命令执行失败"),
                 (.aint 3, "SUCCESS:" ++ action ++ "命令执行成功")],
       [⟨"esp32/robot1/sub", action, 1⟩, ⟨"esp32/robot2/sub", action, 1⟩,
        ⟨"esp32/robot3/sub", action, 1⟩]) := by
  fin_cases h <;> rfl

/-- C3 witness: the partial-failure behaviour at the concrete action
`dance`. -/
theorem C3_witness :
    robots_control envFail2 true "dance" (.plist [.aint 1, .aint 2, .aint 3]) =
      (.results [(.aint 1, "SUCCESS:dance命令执行成功"),
                 (.aint 2, "ERROR:dance命令执行失败"),
                 (.aint 3, "SUCCESS:dance命令执行成功")],
       [⟨"esp32/robot1/sub", "dance", 1⟩, ⟨"esp32/robot2/sub", "dance", 1⟩,
        ⟨"esp32/robot3/sub", "dance", 1⟩]) :=
  C3_partial_failure_independence "dance" (by decide)

/-- C4 counterexample: when the first call's `client.connect` raises,
`_initialized` stays `False`, so the second call re-runs `__init__` and
the second caller's configuration wins — the first caller's
configuration is not kept. -/
theorem C4_counterexample :
    (RobotController_call false true
        (RobotController_call true false none
          ⟨"mqtt.xiaozhi.vip", 1883, none, none⟩).2
        ⟨"broker.example", 1884, none, none⟩).1.cfg =
      ⟨"broker.example", 1884, none, none⟩ ∧
    ¬((RobotController_call false true
        (RobotController_call true false none
          ⟨"mqtt.xiaozhi.vip", 1883, none, none⟩).2
        ⟨"broker.example", 1884, none, none⟩).1.cfg =
      ⟨"mqtt.xiaozhi.vip", 1883, none, none⟩) := by decide

/-- C4 (corrected): when the first call's `client.connect` does not
raise, a second construction of `RobotController` yields the very same
handle as the first call, keeps the first caller's configuration (the
second configuration is ignored), and opens no second transport
connection — the handle's connect count stays 1.  If the first connect
raised, the second call re-initializes with its own configuration;
even then at most one transport connection is ever opened across the
two calls. -/
theorem C4_amended_singleton (r1 r2 e1 e2 : Bool)
    (cfg1 cfg2 : CtrlConfig) :
    ((RobotController_call r2 e2
        (RobotController_call false e1 none cfg1).2 cfg2).1 =
      (RobotController_call false e1 none cfg1).1 ∧
    (RobotController_call r2 e2
        (RobotController_call false e1 none cfg1).2 cfg2).1.cfg = cfg1 ∧
    (RobotController_call r2 e2
        (RobotController_call false e1 none cfg1).2 cfg2).1.connectCount = 1) ∧
    (RobotController_call r2 e2
        (RobotController_call r1 e1 none cfg1).2 cfg2).1.connectCount ≤ 1 := by
  cases r1 <;> cases r2 <;> simp [RobotController_call, ctrl_init]

/-- C5 (confirmed): for every valid action dispatched while connected to
a single target `n` whose publish does not raise, exactly one message is
published, with topic `esp32/robot<n>/sub`, the raw action as payload
and QoS 1, and the per-target result is the SUCCESS status — for every
transport result code, since the code is never inspected (the statement
holds for arbitrary `env.pubRc`). -/
theorem C5_publish_contract (env : MqttEnv) (action : String) (n : Int)
    (h : action ∈ ROBOT_ACTIONS)
    (hr : env.pubRaises ("esp32/robot" ++ toString n ++ "/sub") = false) :
    robots_control env true action (.atom (.aint n)) =
      (.results [(.aint n, "SUCCESS:" ++ action ++ "命令执行成功")],
       [⟨"esp32/robot" ++ toString n ++ "/sub", action, 1⟩]) := by
  have hsa : send_action env true action (robotTopic (.aint n)) =
      ("SUCCESS:" ++ action ++ "命令执行成功",
       [⟨robotTopic (.aint n), action, 1⟩]) := by
    simp only [send_action]
    rw [if_neg (by simp), if_neg (by simp [h]),
      if_neg (by simp [robotTopic, atomStr, hr])]
  simp only [robots_control, runTargets, hsa]
  simp [dictInsert, robotTopic, atomStr]

/-- C5 witness: action `forward` to target 2 publishes exactly
`esp32/robot2/sub` with payload `forward` at QoS 1 and reports
success. -/
theorem C5_witness :
    robots_control envAllOk true "forward" (.atom (.aint 2)) =
      (.results [(.aint 2, "SUCCESS:forward命令执行成功")],
       [⟨"esp32/robot2/sub", "forward", 1⟩]) :=
  C5_publish_contract envAllOk "forward" 2 (by decide) rfl

/-- C6 (confirmed): with a live connection and a valid action, every
occurrence in the target list gets its own publish attempt, in order and
without deduplication, and the returned mapping is a per-target result
dict containing a key for every target in the list. -/
theorem C6_duplicates_independent (env : MqttEnv) (action : String)
    (rids : List PyAtom) (h : action ∈ ROBOT_ACTIONS) :
    (robots_control env true action (.plist rids)).2 =
      rids.map (fun rid => ⟨robotTopic rid, action, 1⟩) ∧
    ∃ m, (robots_control env true action (.plist rids)).1 = .results m ∧
      ∀ rid ∈ rids, ∃ w, (rid, w) ∈ m := by
  constructor
  · simp only [robots_control]
    rw [if_neg (by simp)]
    exact runTargets_msgs env action h rids []
  · exact ⟨(runTargets env true action rids []).1, by simp [robots_control],
      (runTargets_covers env true action rids []).2⟩

/-- C6 witness: the duplicate target list `[1, 1]` with action `dance`
gets two publish attempts and a mapping covering target 1. -/
theorem C6_witness :
    (robots_control envAllOk true "dance" (.plist [.aint 1, .aint 1])).2 =
      [PyAtom.aint 1, PyAtom.aint 1].map
        (fun rid => ⟨robotTopic rid, "dance", 1⟩) ∧
    ∃ m, (robots_control envAllOk true "dance"
        (.plist [.aint 1, .aint 1])).1 = .results m ∧
      ∀ rid ∈ [PyAtom.aint 1, PyAtom.aint 1], ∃ w, (rid, w) ∈ m :=
  C6_duplicates_independent envAllOk "dance" [.aint 1, .aint 1] (by decide)

/-- C7 counterexample: the list `["x"]`, which is not a sequence of
integers, is accepted rather than rejected: dispatch proceeds and even
publishes to the nonsensical topic `esp32/robotx/sub`. -/
theorem C7_counterexample :
    robots_control envAllOk true "dance" (.plist [.astr "x"]) =
      (.results [(.astr "x", "SUCCESS:dance命令执行成功")],
       [⟨"esp32/robotx/sub", "dance", 1⟩]) := rfl

/-- C7 (corrected): with a live connection, dispatch rejects with the
bad-argument response exactly when `robot_id` is neither an integer nor
a list; a list is accepted whatever its elements are — element types are
never validated. -/
theorem C7_amended_list_elements_unchecked (env : MqttEnv)
    (action : String) (robot_id : PyValue) :
    ((robots_control env true action robot_id).1 = .invalidArg ↔
      ∃ s, robot_id = .atom (.astr s)) := by
  cases robot_id with
  | atom a =>
    cases a with
    | aint n => simp [robots_control]
    | astr s => simp [robots_control]
  | plist xs => simp [robots_control]

/-- C8 counterexample: the bounded wait polls at most 50 times with a
100 ms interval, not 500 times with a 10 ms interval: on a trace that
never connects, exactly 50 sleeps happen. -/
theorem C8_counterexample :
    waitLoop (fun _ => false) WAIT_POLLS 0 = 50 ∧ WAIT_INTERVAL_MS = 100 ∧
    ¬(WAIT_POLLS = 500 ∧ WAIT_INTERVAL_MS = 10) := by decide

/-- C8 (corrected): initialization waits for the connected state by
polling in at most 50 intervals of 100 ms each (~5 seconds total) and
exits the wait at the first poll that observes the connected state;
when the connect call did not raise, initialization completes and the
handle is returned regardless of whether the connected state was
reached within the bound. -/
theorem C8_amended_bounded_wait (connAt : Nat → Bool) (e : Bool)
    (cfg : CtrlConfig) :
    WAIT_POLLS = 50 ∧ WAIT_INTERVAL_MS = 100 ∧
    WAIT_POLLS * WAIT_INTERVAL_MS = 5000 ∧
    waitLoop connAt WAIT_POLLS 0 ≤ WAIT_POLLS ∧
    (∀ k, k < WAIT_POLLS → connAt k = true →
      (∀ j, j < k → connAt j = false) → waitLoop connAt WAIT_POLLS 0 = k) ∧
    (ctrl_init false e ⟨false, false, cfg, 0⟩ cfg).initialized = true := by
  refine ⟨rfl, rfl, rfl, waitLoop_le connAt WAIT_POLLS 0, ?_, rfl⟩
  intro k hk hc hprev
  exact waitLoop_stops_when_connected connAt WAIT_POLLS 0 k hk
    (by simpa using hc) (by simpa using hprev)

/-- C8 witness: on a trace that connects at the third poll, the wait
sleeps exactly three times. -/
theorem C8_amended_witness :
    waitLoop (fun k => decide (3 ≤ k)) WAIT_POLLS 0 = 3 :=
  (C8_amended_bounded_wait (fun k => decide (3 ≤ k)) true
      ⟨"mqtt.xiaozhi.vip", 1883, none, none⟩).2.2.2.2.1 3
    (by decide) (by decide) (by decide)

/-- C9 (confirmed): with a live connection, the single-integer target
`5` yields a result mapping with exactly one entry keyed 5, and the
empty target list yields the empty mapping, not an error. -/
theorem C9_single_and_empty (env : MqttEnv) (action : String) :
    (∃ v, (robots_control env true action (.atom (.aint 5))).1 =
      .results [(.aint 5, v)]) ∧
    robots_control env true action (.plist []) = (.results [], []) := by
  constructor
  · exact ⟨(send_action env true action (robotTopic (.aint 5))).1, by
      simp [robots_control, runTargets, dictInsert]⟩
  · simp [robots_control, runTargets]

/-- C10 (confirmed): `send_action` checks the connection state before
action validity: while not connected it returns the not-connected error
for every action string, including invalid ones, and the invalid-action
error can only ever be produced while connected. -/
theorem C10_connection_checked_before_action (env : MqttEnv) (c : Bool)
    (action topic : String) :
    (c = false → send_action env c action topic = ("ERROR：MQTT未连接", [])) ∧
    ((send_action env c action topic).1 = "ERROR:无效的动作指令" ++ action →
      c = true) := by
  constructor
  · intro hc
    subst hc
    rfl
  · intro hs
    cases c with
    | true => rfl
    | false =>
      have h2 : "ERROR：MQTT未连接" = "ERROR:无效的动作指令" ++ action := hs
      exact absurd h2.symm (unknown_action_ne_notconn action)

/-- C10 witness: the invalid action `fly` while disconnected still gets
the not-connected error, not the invalid-action error. -/
theorem C10_witness :
    send_action envAllOk false "fly" "esp32/robot1/sub" =
      ("ERROR：MQTT未连接", []) :=
  (C10_connection_checked_before_action envAllOk false "fly"
    "esp32/robot1/sub").1 rfl

end RobotsControl
